import Mathlib

/-!
Verification of the voice transport subsystem of `acord`
(`src/acord/voice/core.py`, class `VoiceWebsocket`).

The Python class is shallowly embedded as a Lean structure `VoiceWS`
holding the mutable attributes, together with pure functions that mirror
the methods.  Python exceptions are modelled by the error type `PyError`
together with `Except`; the side effects of the async methods (control
websocket sends, UDP writes, UDP connects) are modelled as explicit
event traces.  The NaCl `SecretBox.encrypt` primitive and
`nacl.utils.random` live outside the repository, so encryption is taken
as an abstract parameter `box : Box` (key, nonce and message to
ciphertext) and the random 24-byte nonce of suffix mode as a parameter
`rand`; every theorem below quantifies over them.
-/

namespace AcordVoice

/-- Python exceptions that the embedded methods can raise.
`attributeError s` records the missing attribute named by `s`;
`structError` is `struct.error` from `pack`/`pack_into` on an
out-of-range value; `valueError`/`connectionError`/`typeError`/
`indexError` are the corresponding builtins.  `notReady` does not occur
anywhere in the source: it is the `NotReady` error named by the
specification error taxonomy, included only so that statements about it
can be written down. -/
inductive PyError where
  | attributeError (attr : String)
  | structError
  | valueError (msg : String)
  | connectionError (msg : String)
  | typeError (msg : String)
  | indexError
  | notReady
  deriving DecidableEq, Repr

deriving instance DecidableEq for Except

/-- The `d` dict of the op-2 READY packet: `ip`, `port`, `ssrc`, `modes`
(`self._ready_packet["d"]`). -/
structure ReadyData where
  ip : String
  port : Nat
  ssrc : Nat
  modes : List String
  deriving DecidableEq, Repr

/-- The mutable attributes of `VoiceWebsocket` relevant to the claims.
Booleans `ws`, `sock`, `keep_alive`, `listener` record whether
`self._ws`, `self._sock`, `self._keep_alive`, `self._listener` are set
(non-`None`); `conn_id`, `decode_key`, `ready_packet` are `none` while
the Python attribute is unassigned (`self._conn_id`, `self._decode_key`)
or `None` (`self._ready_packet`); `mode` is `self.mode`. -/
structure VoiceWS where
  sequence : Nat
  timestamp : Nat
  ssrc : Nat
  lite_nonce : Nat
  mode : Option String
  ws : Bool
  sock : Bool
  keep_alive : Bool
  listener : Bool
  decode_key : Option (List Nat)
  ready_packet : Option ReadyData
  conn_id : Option Nat
  disconnected : Bool
  connect_event : Bool
  send_event : Bool
  deriving DecidableEq, Repr

/-- `VoiceWebsocket.__init__`: counters zero, no mode, no handles,
`disconnected = True`, events unset, `_conn_id` never assigned. -/
def initVoiceWS : VoiceWS :=
  { sequence := 0
    timestamp := 0
    ssrc := 0
    lite_nonce := 0
    mode := none
    ws := false
    sock := false
    keep_alive := false
    listener := false
    decode_key := none
    ready_packet := none
    conn_id := none
    disconnected := true
    connect_event := false
    send_event := false }

/-- Big-endian bytes of a 16-bit value (the payload written by
`pack_into(">H", ...)` when in range). -/
def beBytes2 (n : Nat) : List Nat :=
  [n / 256 % 256, n % 256]

/-- Big-endian bytes of a 32-bit value (the payload written by
`pack_into(">I", ...)` and `pack(">I", ...)` when in range). -/
def beBytes4 (n : Nat) : List Nat :=
  [n / 16777216 % 256, n / 65536 % 256, n / 256 % 256, n % 256]

/-- `struct.pack_into(">H", buf, off, n)`: raises `struct.error` unless
`0 <= n <= 65535`, else writes the two big-endian bytes. -/
def packH (n : Nat) : Except PyError (List Nat) :=
  if n ≤ 65535 then .ok (beBytes2 n) else .error .structError

/-- `struct.pack(">I", n)` / `pack_into(">I", ...)`: raises
`struct.error` unless `0 <= n <= 4294967295`, else gives the four
big-endian bytes. -/
def packI (n : Nat) : Except PyError (List Nat) :=
  if n ≤ 4294967295 then .ok (beBytes4 n) else .error .structError

/-- Abstract `nacl.secret.SecretBox` encryption: key, nonce, message to
ciphertext.  The library is outside the repository, so all results are
proved for an arbitrary `box`. -/
abbrev Box := List Nat → List Nat → List Nat → List Nat

/-- `VoiceWebsocket.checked_add(attr, value, limit)` on the numeric
value: reset to `0` when `val + value` exceeds `limit`, else add. -/
def checked_add (val value limit : Nat) : Nat :=
  if val + value > limit then 0 else val + value

/-- `VoiceWebsocket.supported_modes`. -/
def supported_modes : List String :=
  ["xsalsa20_poly1305_lite", "xsalsa20_poly1305_suffix", "xsalsa20_poly1305"]

/-- `VoiceWebsocket._encrypt_xsalsa20_poly1305`: nonce is a 24-byte
buffer whose first 12 bytes are the header (`nonce[:12] = header`) and
the rest zero; returns `header + ciphertext`.  Raises `AttributeError`
if `self._decode_key` was never assigned. -/
def encrypt_xsalsa20_poly1305 (box : Box) (s : VoiceWS) (header data : List Nat) :
    Except PyError (List Nat × VoiceWS) :=
  match s.decode_key with
  | none => .error (.attributeError "_decode_key")
  | some key =>
      let nonce := header ++ List.replicate 12 0
      .ok (header ++ box key nonce data, s)

/-- `VoiceWebsocket._encrypt_xsalsa20_poly1305_suffix`: nonce is the
fresh random 24-byte value `rand` (`nacl.utils.random`); returns
`header + ciphertext + nonce`. -/
def encrypt_xsalsa20_poly1305_suffix (box : Box) (rand : List Nat) (s : VoiceWS)
    (header data : List Nat) : Except PyError (List Nat × VoiceWS) :=
  match s.decode_key with
  | none => .error (.attributeError "_decode_key")
  | some key =>
      .ok (header ++ box key rand data ++ rand, s)

/-- `VoiceWebsocket._encrypt_xsalsa20_poly1305_lite`: nonce is a
24-byte buffer whose first 4 bytes are `pack(">I", self._lite_nonce)`
and the rest zero; then `checked_add("_lite_nonce", 1, 4294967295)`;
returns `header + ciphertext + nonce[:4]` with the pre-increment
nonce. -/
def encrypt_xsalsa20_poly1305_lite (box : Box) (s : VoiceWS) (header data : List Nat) :
    Except PyError (List Nat × VoiceWS) :=
  match s.decode_key with
  | none => .error (.attributeError "_decode_key")
  | some key =>
      match packI s.lite_nonce with
      | .error e => .error e
      | .ok nb =>
          let nonce := nb ++ List.replicate 20 0
          .ok (header ++ box key nonce data ++ nonce.take 4,
               { s with lite_nonce := checked_add s.lite_nonce 1 4294967295 })

/-- `getattr(self, "_encrypt_" + str(self.mode))`: dynamic dispatch to
the three encryption methods; any other mode value (including `None`)
raises `AttributeError` on the lookup. -/
def dispatchEncrypt (box : Box) (rand : List Nat) (s : VoiceWS) (header data : List Nat) :
    Except PyError (List Nat × VoiceWS) :=
  match s.mode with
  | some "xsalsa20_poly1305" => encrypt_xsalsa20_poly1305 box s header data
  | some "xsalsa20_poly1305_suffix" => encrypt_xsalsa20_poly1305_suffix box rand s header data
  | some "xsalsa20_poly1305_lite" => encrypt_xsalsa20_poly1305_lite box s header data
  | _ => .error (.attributeError "encrypt_mode_lookup")

/-- `VoiceWebsocket._get_audio_packet`: builds the 12-byte header
(`header[0] = 0x80`, `header[1] = 0x70`, then big-endian sequence,
timestamp and SSRC via `pack_into`), then dispatches to the mode
encrypter. -/
def get_audio_packet (box : Box) (rand : List Nat) (s : VoiceWS) (data : List Nat) :
    Except PyError (List Nat × VoiceWS) :=
  match packH s.sequence with
  | .error e => .error e
  | .ok sb =>
      match packI s.timestamp with
      | .error e => .error e
      | .ok tb =>
          match packI s.ssrc with
          | .error e => .error e
          | .ok cb => dispatchEncrypt box rand s (0x80 :: 0x70 :: (sb ++ tb ++ cb)) data

/-- Observable side effects of `send_audio_packet`: the op-5 speaking
JSON sent over the control websocket, and the datagram written to the
UDP socket. -/
inductive SendEffect where
  | wsSendSpeaking (op speaking delay ssrc : Nat)
  | sockWrite (data : List Nat) (flags : Nat)
  deriving DecidableEq, Repr

/-- `VoiceWebsocket.send_audio_packet(data, flags, has_header,
sock_flags, delay)`: frames/encrypts via `_get_audio_packet` unless
`has_header`, sends the `{"op": 5, "d": {"speaking": flags, "delay":
delay, "ssrc": self.ssrc}}` JSON over `self._ws`, writes the bytes to
`self._sock`, then `self.sequence += 1`.  Returns the effects performed
before any exception together with the outcome. -/
def send_audio_packet (box : Box) (rand : List Nat) (s : VoiceWS) (data : List Nat)
    (flags : Nat) (has_header : Bool) (sock_flags : Nat) (delay : Nat) :
    List SendEffect × Except PyError VoiceWS :=
  match (if has_header then .ok (data, s) else get_audio_packet box rand s data :
      Except PyError (List Nat × VoiceWS)) with
  | .error e => ([], .error e)
  | .ok (d, s1) =>
      if s1.ws then
        let ev1 := SendEffect.wsSendSpeaking 5 flags delay s1.ssrc
        if s1.sock then
          ([ev1, SendEffect.sockWrite d sock_flags],
           .ok { s1 with sequence := s1.sequence + 1 })
        else
          ([ev1], .error (.attributeError "write"))
      else
        ([], .error (.attributeError "send_json"))

/-- `VoiceWebsocket.connect(v)`: bumps the global `CONNECTIONS`
counter, assigns `self._conn_id`, stores the websocket handle and
clears `disconnected`.  Returns the new state and global counter. -/
def connect (s : VoiceWS) (connections : Nat) : VoiceWS × Nat :=
  ({ s with conn_id := some (connections + 1), ws := true, disconnected := false },
   connections + 1)

/-- `VoiceWebsocket.disconnect(message)`: when already disconnected,
logs a warning whose f-string reads `self._conn_id` (raising
`AttributeError` if `connect` never assigned it) and returns; when no
keepalive exists, raises `ConnectionError`; otherwise logs (reading
`self._conn_id` again), stops the keepalive, closes the websocket with
all exceptions swallowed, closes the socket if present, clears the
handles, cancels the listener, and sets `disconnected = True`. -/
def disconnect (s : VoiceWS) : Except PyError VoiceWS :=
  if s.disconnected then
    match s.conn_id with
    | none => .error (.attributeError "_conn_id")
    | some _ => .ok s
  else if ¬ s.keep_alive then
    .error (.connectionError "Keepalive does not exist, failed to disconnect ws")
  else
    match s.conn_id with
    | none => .error (.attributeError "_conn_id")
    | some _ =>
        .ok { s with ws := false, sock := false, keep_alive := false,
                     listener := false, disconnected := true }

/-- The payload dict built by `VoiceWebsocket.udp_payload`: the op-1
protocol selection message `{"protocol": "udp", "data": {"address",
"port", "mode"}}`. -/
structure UdpPayload where
  op : Nat
  protocol : String
  address : String
  port : Nat
  mode : String
  deriving DecidableEq, Repr

/-- `self._ready_packet["d"]["modes"][0]`: the default mode when the
caller passes none.  Subscripting `None` raises `TypeError`; an empty
list raises `IndexError`. -/
def defaultMode (s : VoiceWS) : Except PyError String :=
  match s.ready_packet with
  | none => .error (.typeError "NoneType is not subscriptable")
  | some rp =>
      match rp.modes with
      | [] => .error .indexError
      | m :: _ => .ok m

/-- `VoiceWebsocket.udp_payload(mode=None)`: defaults the mode to the
first server-advertised one when the argument is falsy (`None` or the
empty string), raises `ValueError` when the mode is not in
`supported_modes`, else assigns `self.mode` and builds the op-1
payload from the READY ip and port. -/
def udp_payload (s : VoiceWS) (mode : Option String) :
    Except PyError (UdpPayload × VoiceWS) :=
  match (match mode with
         | some mm => if mm = "" then defaultMode s else .ok mm
         | none => defaultMode s : Except PyError String) with
  | .error e => .error e
  | .ok m =>
      if m ∈ supported_modes then
        let s1 := { s with mode := some m }
        match s1.ready_packet with
        | none => .error (.typeError "NoneType is not subscriptable")
        | some rp => .ok ({ op := 1, protocol := "udp", address := rp.ip,
                            port := rp.port, mode := m }, s1)
      else
        .error (.valueError "Encountered unknown mode")

/-- Observable side effects of handling an op-2 READY message: the UDP
connect performed by `upd_connect` and the op-1 payload sent back over
the control websocket. -/
inductive ReadyEffect where
  | udpOpen (ip : String) (port : Nat)
  | wsSendUdpPayload (p : UdpPayload)
  deriving DecidableEq, Repr

/-- The `data["op"] == 2` branch of `VoiceWebsocket._handle_voice`
together with `upd_connect`: stores `self._ready_packet`, completes the
UDP connection (whose debug log reads `self._conn_id`, raising
`AttributeError` if unassigned) producing the socket, sends
`self.udp_payload(**kwargs)` over the websocket, sets `connect_event`
and stores the SSRC.  Effects performed before an exception are kept. -/
def handle_ready (s : VoiceWS) (d : ReadyData) (kwmode : Option String) :
    List ReadyEffect × Except PyError VoiceWS :=
  let s0 := { s with ready_packet := some d }
  match s0.conn_id with
  | none => ([], .error (.attributeError "_conn_id"))
  | some _ =>
      let ev := ReadyEffect.udpOpen d.ip d.port
      let s1 := { s0 with sock := true }
      match udp_payload s1 kwmode with
      | .error e => ([ev], .error e)
      | .ok (p, s2) =>
          ([ev, ReadyEffect.wsSendUdpPayload p],
           .ok { s2 with connect_event := true, ssrc := d.ssrc })

/-- One lite-nonce update: `checked_add("_lite_nonce", 1, 4294967295)`
as performed after every packet encrypted in lite mode. -/
def liteStep (n : Nat) : Nat :=
  checked_add n 1 4294967295

/-- The 12-byte RTP header `_get_audio_packet` assembles from the
current counters when they are in range: `0x80`, `0x70`, big-endian
16-bit sequence, 32-bit timestamp, 32-bit SSRC. -/
def rtpHeader (s : VoiceWS) : List Nat :=
  0x80 :: 0x70 :: (beBytes2 s.sequence ++ beBytes4 s.timestamp ++ beBytes4 s.ssrc)

/-- Concrete instantiation of the abstract encryption: the identity on
the message, used to evaluate the embedding on concrete inputs. -/
def boxId : Box := fun _ _ d => d

/-- Concrete instantiation of the abstract encryption that changes
every message (prepends a byte), used to observe whether encryption was
applied. -/
def boxPad : Box := fun _ _ d => 0 :: d

/-- A concrete 32-byte secret key. -/
def zeroKey : List Nat := List.replicate 32 0

/-- A concrete 24-byte random nonce for suffix mode. -/
def rand24 : List Nat := List.replicate 24 7

/-- A concrete post-handshake state: connected, socket open, keepalive
running, plain mode negotiated, key received, SSRC 42. -/
def streamPlain : VoiceWS :=
  { initVoiceWS with
      ssrc := 42
      mode := some "xsalsa20_poly1305"
      ws := true
      sock := true
      keep_alive := true
      decode_key := some zeroKey
      conn_id := some 1
      disconnected := false
      connect_event := true
      send_event := true }

/-- A concrete state just after `connect` but before the handshake:
websocket open, connection id assigned, nothing else. -/
def connectedState : VoiceWS :=
  { initVoiceWS with ws := true, disconnected := false, conn_id := some 1 }

/-- A concrete op-2 READY payload advertising only an unsupported
encryption mode. -/
def badReady : ReadyData :=
  { ip := "1.2.3.4", port := 5000, ssrc := 42, modes := ["aes256_gcm"] }

theorem get_audio_packet_state (box : Box) (rand : List Nat) (s : VoiceWS)
    (data d : List Nat) (s1 : VoiceWS)
    (h : get_audio_packet box rand s data = .ok (d, s1)) :
    s1 = s ∨ s1 = { s with lite_nonce := checked_add s.lite_nonce 1 4294967295 } := by
  unfold get_audio_packet at h
  split at h
  · exact absurd h (by simp)
  · split at h
    · exact absurd h (by simp)
    · split at h
      · exact absurd h (by simp)
      · unfold dispatchEncrypt at h
        split at h
        · unfold encrypt_xsalsa20_poly1305 at h
          split at h
          · exact absurd h (by simp)
          · simp only [Except.ok.injEq, Prod.mk.injEq] at h
            exact Or.inl h.2.symm
        · unfold encrypt_xsalsa20_poly1305_suffix at h
          split at h
          · exact absurd h (by simp)
          · simp only [Except.ok.injEq, Prod.mk.injEq] at h
            exact Or.inl h.2.symm
        · unfold encrypt_xsalsa20_poly1305_lite at h
          split at h
          · exact absurd h (by simp)
          · split at h
            · exact absurd h (by simp)
            · simp only [Except.ok.injEq, Prod.mk.injEq] at h
              exact Or.inr h.2.symm
        · exact absurd h (by simp)

/-- C10: calling `disconnect` on a freshly constructed session that has
never connected (so `disconnected` is still `True` from `__init__` and
`_conn_id` was never assigned) raises `AttributeError` from the warning
log in the early-return path, rather than returning as a no-op; once
`connect` has assigned `_conn_id`, the same early-return path is a
clean no-op. -/
theorem C10_fresh_disconnect_raises :
    initVoiceWS.disconnected = true ∧
    initVoiceWS.conn_id = none ∧
    disconnect initVoiceWS = .error (.attributeError "_conn_id") ∧
    (connect initVoiceWS 0).1.conn_id = some 1 ∧
    disconnect { (connect initVoiceWS 0).1 with disconnected := true } =
      .ok { (connect initVoiceWS 0).1 with disconnected := true } :=
  ⟨rfl, rfl, rfl, rfl, rfl⟩

/-- C5 counterexample: `disconnect` is not raise-free on every
controller state — on a freshly constructed, already-disconnected,
never-connected controller it raises `AttributeError` instead of being
a no-op. -/
theorem C5_counterexample :
    initVoiceWS.disconnected = true ∧
    disconnect initVoiceWS = .error (.attributeError "_conn_id") :=
  ⟨rfl, rfl⟩

/-- C5 amended: provided the controller has at some point connected
(so `_conn_id` is assigned) and has a keepalive whenever it is
connected, `disconnect` never raises, leaves the controller
disconnected, and calling it again immediately is a no-op returning the
same disconnected state. -/
theorem C5_amended_idempotent (s : VoiceWS) (c : Nat) (hc : s.conn_id = some c)
    (hk : s.disconnected = false → s.keep_alive = true) :
    ∃ s2, disconnect s = .ok s2 ∧ s2.disconnected = true ∧ disconnect s2 = .ok s2 := by
  cases hd : s.disconnected with
  | true =>
      refine ⟨s, ?_, hd, ?_⟩ <;> simp [disconnect, hd, hc]
  | false =>
      refine ⟨{ s with ws := false, sock := false, keep_alive := false, listener := false, disconnected := true }, ?_, rfl, ?_⟩
      · simp [disconnect, hd, hk hd, hc]
      · simp [disconnect, hc]

/-- C5 witness: the amended statement evaluated on the concrete
post-handshake state. -/
theorem C5_witness :
    ∃ s2, disconnect streamPlain = .ok s2 ∧ s2.disconnected = true ∧
      disconnect s2 = .ok s2 :=
  C5_amended_idempotent streamPlain 1 rfl (fun _ => rfl)

/-- C4 counterexample: in the `Idle` state (fresh controller),
`send_audio_packet` does fail without any socket write, but with an
`AttributeError` from the dynamic encrypter lookup on `mode = None` —
not with the `NotReady` error the specification names. -/
theorem C4_counterexample :
    send_audio_packet boxId rand24 initVoiceWS [1, 2, 3] 5 false 0 0 =
      ([], .error (.attributeError "encrypt_mode_lookup")) ∧
    (Except.error (PyError.attributeError "encrypt_mode_lookup") :
        Except PyError VoiceWS) ≠ .error .notReady := by
  exact ⟨rfl, by decide⟩

/-- C4 amended: in any state where no mode has been negotiated and the
control websocket is absent (in particular `Idle` before `connect`,
with in-range counters), `send_audio_packet` fails with an
`AttributeError` — from the encrypter lookup when it frames the packet
itself, or from the absent websocket when `has_header` is set — and
performs no effect at all: no socket write and no queuing. -/
theorem C4_amended_idle_fails (box : Box) (rand data : List Nat)
    (flags sock_flags delay : Nat) (hh : Bool) (s : VoiceWS)
    (hm : s.mode = none) (hw : s.ws = false)
    (hseq : s.sequence ≤ 65535) (hts : s.timestamp ≤ 4294967295)
    (hssrc : s.ssrc ≤ 4294967295) :
    (∃ a, (send_audio_packet box rand s data flags hh sock_flags delay).2 =
        .error (.attributeError a)) ∧
    (send_audio_packet box rand s data flags hh sock_flags delay).1 = [] := by
  cases hh with
  | true =>
      constructor
      · exact ⟨"send_json", by simp [send_audio_packet, hw]⟩
      · simp [send_audio_packet, hw]
  | false =>
      have hga : get_audio_packet box rand s data =
          .error (.attributeError "encrypt_mode_lookup") := by
        simp [get_audio_packet, packH, packI, hseq, hts, hssrc, dispatchEncrypt, hm]
      constructor
      · exact ⟨"encrypt_mode_lookup", by simp [send_audio_packet, hga]⟩
      · simp [send_audio_packet, hga]

/-- C4 witness: the amended statement evaluated on the concrete fresh
`Idle` state. -/
theorem C4_witness :
    (∃ a, (send_audio_packet boxId rand24 initVoiceWS [1, 2, 3] 5 false 0 0).2 =
        .error (.attributeError a)) ∧
    (send_audio_packet boxId rand24 initVoiceWS [1, 2, 3] 5 false 0 0).1 = [] :=
  C4_amended_idle_fails boxId rand24 [1, 2, 3] 5 0 0 false initVoiceWS rfl rfl
    (by decide) (by decide) (by decide)

/-- C1: evaluation at the failing input.  `send_audio_packet` bumps the
sequence with a bare `+= 1`, never `checked_add`: the send performed at
sequence 65535 leaves the counter at 65536, already past the declared
16-bit width instead of wrapping to 0, and the next send fails with
`struct.error` when `pack_into(">H", ...)` rejects 65536 — the code
errors at exhaustion where the claim requires a wrap. -/
theorem C1_sequence_exhaustion :
    (send_audio_packet boxId rand24 { streamPlain with sequence := 65535 }
        [1] 5 false 0 0).2 =
      .ok { streamPlain with sequence := 65536 } ∧
    65536 > 65535 ∧
    send_audio_packet boxId rand24 { streamPlain with sequence := 65536 }
        [1] 5 false 0 0 = ([], .error .structError) := by
  exact ⟨by decide, by decide, by decide⟩

/-- C2: packet layout for every payload and negotiated mode.  With the
counters inside their declared ranges and a received key, the built
packet is the fixed 12-byte big-endian header (`0x80`, `0x70`, 16-bit
sequence, 32-bit timestamp, 32-bit SSRC) followed by the ciphertext,
with no trailing bytes in plain mode (whose nonce is the header padded
with 12 zeros to 24 bytes), the full 24-byte random nonce trailing in
suffix mode, and the 4 big-endian lite-counter bytes trailing in lite
mode. -/
theorem C2_packet_layout (box : Box) (rand : List Nat) (s : VoiceWS)
    (data key : List Nat) (hkey : s.decode_key = some key)
    (hseq : s.sequence ≤ 65535) (hts : s.timestamp ≤ 4294967295)
    (hssrc : s.ssrc ≤ 4294967295) (hlite : s.lite_nonce ≤ 4294967295)
    (hrand : rand.length = 24) :
    (rtpHeader s).length = 12 ∧
    rtpHeader s = 0x80 :: 0x70 ::
      (beBytes2 s.sequence ++ beBytes4 s.timestamp ++ beBytes4 s.ssrc) ∧
    (s.mode = some "xsalsa20_poly1305" →
      get_audio_packet box rand s data =
        .ok (rtpHeader s ++ box key (rtpHeader s ++ List.replicate 12 0) data, s)) ∧
    (s.mode = some "xsalsa20_poly1305_suffix" →
      get_audio_packet box rand s data =
        .ok (rtpHeader s ++ box key rand data ++ rand, s) ∧ rand.length = 24) ∧
    (s.mode = some "xsalsa20_poly1305_lite" →
      get_audio_packet box rand s data =
        .ok (rtpHeader s ++
               box key (beBytes4 s.lite_nonce ++ List.replicate 20 0) data ++
               beBytes4 s.lite_nonce,
             { s with lite_nonce := checked_add s.lite_nonce 1 4294967295 }) ∧
      (beBytes4 s.lite_nonce).length = 4) := by
  refine ⟨by simp [rtpHeader, beBytes2, beBytes4], rfl, ?_, ?_, ?_⟩
  · intro hm
    simp [get_audio_packet, packH, packI, hseq, hts, hssrc, dispatchEncrypt, hm,
          encrypt_xsalsa20_poly1305, hkey, rtpHeader]
  · intro hm
    refine ⟨?_, hrand⟩
    simp [get_audio_packet, packH, packI, hseq, hts, hssrc, dispatchEncrypt, hm,
          encrypt_xsalsa20_poly1305_suffix, hkey, rtpHeader]
  · intro hm
    refine ⟨?_, by simp [beBytes4]⟩
    have htake : List.take 4 (beBytes4 s.lite_nonce ++
        [0, 0, 0, 0, 0, 0, 0, 0, 0, 0, 0, 0, 0, 0, 0, 0, 0, 0, 0, 0]) =
        beBytes4 s.lite_nonce := rfl
    simp [get_audio_packet, packH, packI, hseq, hts, hssrc, hlite, dispatchEncrypt,
          hm, encrypt_xsalsa20_poly1305_lite, hkey, rtpHeader, htake]

/-- C2 witness: the layout theorem applied to the concrete plain-mode
state gives the concrete wire packet. -/
theorem C2_witness :
    get_audio_packet boxId rand24 streamPlain [1, 2, 3] =
      .ok ([0x80, 0x70, 0, 0, 0, 0, 0, 0, 0, 0, 0, 42] ++ [1, 2, 3], streamPlain) := by
  have h := (C2_packet_layout boxId rand24 streamPlain [1, 2, 3] zeroKey rfl
      (by decide) (by decide) (by decide) (by decide) (by decide)).2.2.1 rfl
  rw [h]
  decide

/-- A concrete post-handshake state negotiated in lite mode. -/
def streamLite : VoiceWS :=
  { streamPlain with mode := some "xsalsa20_poly1305_lite" }

theorem liteIter_eq (k : Nat) (hk : k ≤ 4294967295) : liteStep^[k] 0 = k := by
  induction k with
  | zero => rfl
  | succ n ih =>
      rw [Function.iterate_succ_apply', ih (Nat.le_of_succ_le hk)]
      unfold liteStep checked_add
      rw [if_neg (by omega)]

/-- C3 counterexample: after exactly 4294967295 increments from 0 the
lite-nonce counter holds 4294967295, not 0 — `checked_add` only wraps
on the increment that would exceed the limit, so the cycle length is
4294967296, one more than the claim states. -/
theorem C3_counterexample :
    liteStep^[4294967295] 0 = 4294967295 ∧ (4294967295 : Nat) ≠ 0 :=
  ⟨liteIter_eq 4294967295 (Nat.le_refl _), by decide⟩

/-- C3 amended: the lite-nonce counter starts at 0, increments by
exactly 1 after every packet encrypted in lite mode, never exceeds
4294967295, wraps to 0 exactly when an increment would exceed
4294967295, and returns to 0 after exactly 4294967296 increments. -/
theorem C3_amended_lite_cycle :
    initVoiceWS.lite_nonce = 0 ∧
    (∀ n, n ≤ 4294967295 → liteStep n ≤ 4294967295) ∧
    (∀ n, n < 4294967295 → liteStep n = n + 1) ∧
    liteStep 4294967295 = 0 ∧
    liteStep^[4294967296] 0 = 0 ∧
    (∀ box s header data key, s.decode_key = some key →
      s.lite_nonce ≤ 4294967295 →
      ∃ pkt, encrypt_xsalsa20_poly1305_lite box s header data =
        .ok (pkt, { s with lite_nonce := liteStep s.lite_nonce })) := by
  refine ⟨rfl, ?_, ?_, by decide, ?_, ?_⟩
  · intro n hn
    unfold liteStep checked_add
    split <;> omega
  · intro n hn
    unfold liteStep checked_add
    rw [if_neg (by omega)]
  · have h1 : (4294967296 : Nat) = 4294967295 + 1 := by norm_num
    rw [h1, Function.iterate_succ_apply', liteIter_eq 4294967295 (Nat.le_refl _)]
    decide
  · intro box s header data key hkey hl
    refine ⟨header ++ box key (beBytes4 s.lite_nonce ++ List.replicate 20 0) data ++
        List.take 4 (beBytes4 s.lite_nonce ++ List.replicate 20 0), ?_⟩
    simp [encrypt_xsalsa20_poly1305_lite, hkey, packI, hl, liteStep]

/-- C3 witness: the amended statement evaluated at concrete points — a
mid-range increment and one concrete lite-mode encryption. -/
theorem C3_witness :
    liteStep 5 = 5 + 1 ∧
    ∃ pkt, encrypt_xsalsa20_poly1305_lite boxId streamLite
        [0x80, 0x70, 0, 0, 0, 0, 0, 0, 0, 0, 0, 42] [1, 2, 3] =
      .ok (pkt, { streamLite with lite_nonce := liteStep streamLite.lite_nonce }) :=
  ⟨C3_amended_lite_cycle.2.2.1 5 (by decide),
   C3_amended_lite_cycle.2.2.2.2.2 boxId streamLite
     [0x80, 0x70, 0, 0, 0, 0, 0, 0, 0, 0, 0, 42] [1, 2, 3] zeroKey rfl (by decide)⟩

theorem send_audio_packet_ok (box : Box) (rand : List Nat) (s : VoiceWS)
    (data : List Nat) (flags : Nat) (hh : Bool) (sock_flags delay : Nat)
    (evs : List SendEffect) (s2 : VoiceWS)
    (h : send_audio_packet box rand s data flags hh sock_flags delay = (evs, .ok s2)) :
    ∃ d s1,
      (s1 = s ∨ s1 = { s with lite_nonce := checked_add s.lite_nonce 1 4294967295 }) ∧
      evs = [SendEffect.wsSendSpeaking 5 flags delay s1.ssrc,
             SendEffect.sockWrite d sock_flags] ∧
      s2 = { s1 with sequence := s1.sequence + 1 } := by
  unfold send_audio_packet at h
  split at h
  · exact absurd h (by simp)
  · rename_i d s1 heq
    by_cases hws : s1.ws
    · rw [if_pos hws] at h
      by_cases hsk : s1.sock
      · rw [if_pos hsk] at h
        simp only [Prod.mk.injEq, Except.ok.injEq] at h
        refine ⟨d, s1, ?_, h.1.symm, h.2.symm⟩
        cases hh with
        | true =>
            simp only [if_pos] at heq
            simp only [Except.ok.injEq, Prod.mk.injEq] at heq
            exact Or.inl heq.2.symm
        | false =>
            rw [if_neg Bool.false_ne_true] at heq
            exact get_audio_packet_state box rand s data d s1 heq
      · rw [if_neg hsk] at h
        exact absurd h (by simp)
    · rw [if_neg hws] at h
      exact absurd h (by simp)

/-- C9: whenever `send_audio_packet` succeeds — `has_header` set or not
— its effects are exactly the op-5 speaking status message
`{op: 5, d: {speaking, delay, ssrc}}` sent over the control websocket
followed by the datagram written to the UDP socket, and the sequence
counter is incremented by 1 after the write. -/
theorem C9_speaking_then_write (box : Box) (rand : List Nat) (s : VoiceWS)
    (data : List Nat) (flags : Nat) (hh : Bool) (sock_flags delay : Nat)
    (evs : List SendEffect) (s2 : VoiceWS)
    (h : send_audio_packet box rand s data flags hh sock_flags delay = (evs, .ok s2)) :
    (∃ d, evs = [SendEffect.wsSendSpeaking 5 flags delay s.ssrc,
                 SendEffect.sockWrite d sock_flags]) ∧
    s2.sequence = s.sequence + 1 := by
  obtain ⟨d, s1, hs1, hevs, hs2⟩ :=
    send_audio_packet_ok box rand s data flags hh sock_flags delay evs s2 h
  rcases hs1 with rfl | rfl
  · exact ⟨⟨d, hevs⟩, by rw [hs2]⟩
  · exact ⟨⟨d, hevs⟩, by rw [hs2]⟩

/-- C9 witness: a concrete successful send with `has_header = true`
shows the op-5 message, the write, and the increment. -/
theorem C9_witness :
    (∃ d, ([SendEffect.wsSendSpeaking 5 5 0 42, SendEffect.sockWrite [7] 0] :
        List SendEffect) =
      [SendEffect.wsSendSpeaking 5 5 0 streamPlain.ssrc,
       SendEffect.sockWrite d 0]) ∧
    ({ streamPlain with sequence := 1 } : VoiceWS).sequence =
      streamPlain.sequence + 1 :=
  C9_speaking_then_write boxId rand24 streamPlain [7] 5 true 0 0
    [SendEffect.wsSendSpeaking 5 5 0 42, SendEffect.sockWrite [7] 0]
    { streamPlain with sequence := 1 } (by decide)

/-- C7 counterexample: with `has_header = true` the supplied bytes are
written to the socket verbatim — the codec is not invoked at all, so
the data is not encrypted before the write (here the bytes written,
`[9, 9]`, differ from what the negotiated plain-mode encryption of the
payload would produce). -/
theorem C7_counterexample :
    send_audio_packet boxPad rand24 streamPlain [9, 9] 5 true 0 0 =
      ([SendEffect.wsSendSpeaking 5 5 0 42, SendEffect.sockWrite [9, 9] 0],
       .ok { streamPlain with sequence := 1 }) ∧
    ([9, 9] : List Nat) ≠
      boxPad zeroKey (rtpHeader streamPlain ++ List.replicate 12 0) [9, 9] := by
  exact ⟨by decide, by simp [boxPad]⟩

/-- C7 amended: with `has_header = true`, `send_audio_packet` performs
neither header construction nor encryption: for every encryption
primitive it writes the caller-supplied bytes to the socket unchanged
(after the op-5 status message) and increments the sequence. -/
theorem C7_amended_passthrough (box : Box) (rand : List Nat) (s : VoiceWS)
    (data : List Nat) (flags sock_flags delay : Nat)
    (hw : s.ws = true) (hs : s.sock = true) :
    send_audio_packet box rand s data flags true sock_flags delay =
      ([SendEffect.wsSendSpeaking 5 flags delay s.ssrc,
        SendEffect.sockWrite data sock_flags],
       .ok { s with sequence := s.sequence + 1 }) := by
  simp [send_audio_packet, hw, hs]

/-- C7 witness: the amended statement evaluated on a concrete state and
payload. -/
theorem C7_witness :
    send_audio_packet boxId rand24 streamPlain [1, 2, 3] 7 true 2 3 =
      ([SendEffect.wsSendSpeaking 5 7 3 streamPlain.ssrc,
        SendEffect.sockWrite [1, 2, 3] 2],
       .ok { streamPlain with sequence := streamPlain.sequence + 1 }) :=
  C7_amended_passthrough boxId rand24 streamPlain [1, 2, 3] 7 2 3 rfl rfl

/-- A concrete streaming state with a nonzero timestamp. -/
def streamTs : VoiceWS := { streamPlain with timestamp := 100 }

/-- C8 counterexample: sending a frame leaves the timestamp exactly
where it was — there is no sample-advance input and no increment in the
send path, so after the frame the timestamp is still 100, not 100 plus
a declared per-frame advance such as 960. -/
theorem C8_counterexample :
    (send_audio_packet boxId rand24 streamTs [1] 5 false 0 0).2 =
      .ok { streamTs with sequence := 1 } ∧
    ({ streamTs with sequence := 1 } : VoiceWS).timestamp = 100 ∧
    (100 : Nat) ≠ 100 + 960 := by
  exact ⟨by decide, rfl, by decide⟩

/-- C8 amended: `send_audio_packet` never modifies the timestamp
counter: every successful send leaves it equal to its previous value
(the header merely embeds the current value of the public field, and
any advance is left to the caller mutating that field externally). -/
theorem C8_amended_timestamp_unchanged (box : Box) (rand : List Nat) (s : VoiceWS)
    (data : List Nat) (flags : Nat) (hh : Bool) (sock_flags delay : Nat)
    (evs : List SendEffect) (s2 : VoiceWS)
    (h : send_audio_packet box rand s data flags hh sock_flags delay = (evs, .ok s2)) :
    s2.timestamp = s.timestamp := by
  obtain ⟨d, s1, hs1, hevs, hs2⟩ :=
    send_audio_packet_ok box rand s data flags hh sock_flags delay evs s2 h
  rcases hs1 with rfl | rfl
  · rw [hs2]
  · rw [hs2]

/-- C8 witness: the amended statement evaluated on a concrete send. -/
theorem C8_witness :
    ({ streamTs with sequence := 1 } : VoiceWS).timestamp = streamTs.timestamp :=
  C8_amended_timestamp_unchanged boxId rand24 streamTs [1] 5 false 0 0
    [SendEffect.wsSendSpeaking 5 5 0 42, SendEffect.sockWrite
      ([0x80, 0x70, 0, 0, 0, 0, 0, 100, 0, 0, 0, 42] ++ [1]) 0]
    { streamTs with sequence := 1 } (by decide)

/-- C6 counterexample: an op-2 READY advertising only unsupported
encryption modes does make the handling fail with the unknown-mode
`ValueError`, but only after the UDP connect has been performed — the
effect trace at the failure already contains the UDP open. -/
theorem C6_counterexample :
    handle_ready connectedState badReady none =
      ([ReadyEffect.udpOpen "1.2.3.4" 5000],
       .error (.valueError "Encountered unknown mode")) ∧
    ([ReadyEffect.udpOpen "1.2.3.4" 5000] : List ReadyEffect) ≠ [] := by
  exact ⟨by decide, by simp⟩

/-- C6 amended: for every READY whose advertised mode list contains
only unsupported names, handling the READY fails with
`ValueError("Encountered unknown mode")` after opening the UDP socket:
the UDP connect to the advertised address always precedes the
failure. -/
theorem C6_amended_udp_then_fail (s : VoiceWS) (d : ReadyData) (c : Nat)
    (hc : s.conn_id = some c) (hne : d.modes ≠ [])
    (hmodes : ∀ m ∈ d.modes, m ∉ supported_modes) :
    handle_ready s d none =
      ([ReadyEffect.udpOpen d.ip d.port],
       .error (.valueError "Encountered unknown mode")) := by
  obtain ⟨m, rest, hdm⟩ : ∃ m rest, d.modes = m :: rest := by
    cases hmm : d.modes with
    | nil => exact absurd hmm hne
    | cons a l => exact ⟨a, l, rfl⟩
  have hm : m ∉ supported_modes := hmodes m (by rw [hdm]; exact List.mem_cons_self m rest)
  simp [handle_ready, hc, udp_payload, defaultMode, hdm, hm]

/-- C6 witness: the amended statement evaluated on the concrete
unsupported-only READY. -/
theorem C6_witness :
    handle_ready connectedState badReady none =
      ([ReadyEffect.udpOpen badReady.ip badReady.port],
       .error (.valueError "Encountered unknown mode")) :=
  C6_amended_udp_then_fail connectedState badReady 1 rfl (by simp [badReady])
    (by decide)

end AcordVoice
